import Mathlib

/-!
Shallow embedding of `src/circuit_breaker/circuit.py` (mistandok/python_circuit_breaker).

Modelling choices, all taken from the source:
* Exception classes are abstract: a type `ε` together with a Boolean
  subclass relation `sub : ε → ε → Bool`, where `sub e c = true` means
  "the class `e` is a subclass of the class `c`" (Python `issubclass(e, c)`).
  Python's `issubclass(e, tup)` on a tuple is `tup.any (sub e)`.
* Time values (`time.monotonic()`, `timedelta.total_seconds()`) are rationals.
  Python truthiness of a float is `≠ 0`, so the source's `if not x:` guards on
  `self._start_time_open_state` are modelled as `none` OR `some 0`.
* `None`-or-tuple fields (`_handle_exceptions`, `_excluded_exceptions`) are
  lists; `None` and the empty tuple are both falsy in the only guards that
  read them, so both are the empty list.
* Counters are naturals (they start at 0 and are only incremented or reset);
  the configured thresholds are integers compared against the counters as in
  the source (`>=` on Python ints).
* The mutable attributes of a `CircuitBreaker` object form the `Breaker`
  record; the never-mutated `_fallback_function` is passed to the wrapper as
  an explicit argument of the matching type.
-/

/-- `BreakerState` enum of the source: CLOSED / OPEN / HALF_OPEN. -/
inductive BreakerState where
  | CLOSED
  | OPEN
  | HALF_OPEN
deriving DecidableEq, Repr

/-- The state of a `CircuitBreaker` object: attributes set in `__init__`
(field names follow the source's `self._*` attributes). -/
structure Breaker (ε : Type) where
  state : BreakerState
  failure_counter : Nat
  max_failure_count : Int
  success_counter : Nat
  min_success_count : Int
  timeout : ℚ
  handle_exceptions : List ε
  excluded_exceptions : List ε
  start_time_open_state : Option ℚ
deriving Repr, DecidableEq

namespace Breaker

variable {ε : Type}

/-- Python `issubclass(exc_type, categories)` for a tuple of classes. -/
def issubclassTup (sub : ε → ε → Bool) (e : ε) (cats : List ε) : Bool :=
  cats.any (fun c => sub e c)

/-- `CircuitBreaker._is_need_handle_error`. -/
def is_need_handle_error (sub : ε → ε → Bool) (b : Breaker ε) (e : ε) : Bool :=
  if !b.excluded_exceptions.isEmpty then
    !issubclassTup sub e b.excluded_exceptions && issubclassTup sub e b.handle_exceptions
  else
    issubclassTup sub e b.handle_exceptions

/-- `CircuitBreaker._failure_limit_is_reached`. -/
def failure_limit_is_reached (b : Breaker ε) : Bool :=
  (b.failure_counter : Int) ≥ b.max_failure_count

/-- `CircuitBreaker._success_limit_is_reached`. -/
def success_limit_is_reached (b : Breaker ε) : Bool :=
  (b.success_counter : Int) ≥ b.min_success_count

/-- `CircuitBreaker._switch_state` at monotonic time `now`
(`_activate_start_time_open_state` inlined as `monotonic()` = `now`). -/
def switch_state (b : Breaker ε) (new_state : BreakerState) (now : ℚ) : Breaker ε :=
  let b1 := { b with state := new_state }
  match new_state with
  | .OPEN => { b1 with start_time_open_state := some now }
  | .CLOSED => { b1 with failure_counter := 0 }
  | .HALF_OPEN => { b1 with success_counter := 0 }

/-- `CircuitBreaker._error_pipeline` at monotonic time `now`. -/
def error_pipeline (b : Breaker ε) (now : ℚ) : Breaker ε :=
  if b.state = .CLOSED then
    let b1 := { b with failure_counter := b.failure_counter + 1 }
    if b1.failure_limit_is_reached then b1.switch_state .OPEN now else b1
  else if b.state = .HALF_OPEN then
    ({ b with success_counter := 0 } : Breaker ε).switch_state .OPEN now
  else
    b

/-- `CircuitBreaker._success_pipeline` at monotonic time `now`. -/
def success_pipeline (b : Breaker ε) (now : ℚ) : Breaker ε :=
  if b.state = .HALF_OPEN then
    let b1 := { b with success_counter := b.success_counter + 1 }
    if b1.success_limit_is_reached then b1.switch_state .CLOSED now else b1
  else
    b

/-- `CircuitBreaker.__exit__` at monotonic time `now`: `exc` is `some e` when
the guarded block raised the exception class `e`, `none` on a normal return.
(The source always returns `False`, so the exception is never suppressed;
the returned record is the breaker afterwards.) -/
def exit_step (sub : ε → ε → Bool) (b : Breaker ε) (exc : Option ε) (now : ℚ) : Breaker ε :=
  match exc with
  | some e => if b.is_need_handle_error sub e then b.error_pipeline now else b
  | none => b.success_pipeline now

/-- `CircuitBreaker._is_func_exec_after_open_state_finished` at monotonic
time `now`.  `if not self._start_time_open_state:` is true for `None` and for
the float `0.0`. -/
def is_func_exec_after_open_state_finished (b : Breaker ε) (now : ℚ) : Bool :=
  match b.start_time_open_state with
  | none => true
  | some t =>
    if t = 0 then true
    else if now - t > b.timeout then true
    else false

/-- `CircuitBreaker.time_left_in_open_state` observed at monotonic time
`now`. -/
def time_left_in_open_state (b : Breaker ε) (now : ℚ) : ℚ :=
  match b.start_time_open_state with
  | none => 0
  | some t =>
    if t = 0 then 0
    else
      let delta := now - t
      if delta > b.timeout then 0 else b.timeout - delta

end Breaker

/-- Outcome of one invocation of the wrapper produced by
`CircuitBreaker.decorator`:
* `ok v` — a value was returned (the protected function's result, or the
  fallback's result);
* `raised e` — the protected function's exception class `e` propagated;
* `circuitOpen b` — `CircuitOpenError(self)` was raised; it stores the
  breaker `b` it was constructed from (`self._circuit_breaker`). -/
inductive CallResult (α ε : Type) where
  | ok (v : α)
  | raised (e : ε)
  | circuitOpen (b : Breaker ε)
deriving Repr, DecidableEq

namespace Breaker

variable {ε : Type}

/-- `CircuitBreaker._execute` at monotonic time `now`: the protected
function's behaviour on this call is `outcome` (`Except.ok v` for a normal
return of `v`, `Except.error e` for raising exception class `e`).  Runs the
body under the context manager, i.e. applies `exit_step`, and either returns
the value or re-raises the original exception. -/
def execute {α : Type} (sub : ε → ε → Bool) (b : Breaker ε) (now : ℚ)
    (outcome : Except ε α) : CallResult α ε × Breaker ε :=
  match outcome with
  | .ok v => (.ok v, b.exit_step sub none now)
  | .error e => (.raised e, b.exit_step sub (some e) now)

/-- The `wrapper` closure built by `CircuitBreaker.decorator`, one
invocation at monotonic time `now` with arguments `args`.
`fallback` models `self._fallback_function` (`none` = Python `None`). -/
def wrapper_call {α argT : Type} (sub : ε → ε → Bool) (b : Breaker ε) (now : ℚ)
    (fallback : Option (argT → α)) (args : argT)
    (outcome : Except ε α) : CallResult α ε × Breaker ε :=
  if b.state = .OPEN then
    if b.is_func_exec_after_open_state_finished now then
      (b.switch_state .HALF_OPEN now).execute sub now outcome
    else
      match fallback with
      | some f => (.ok (f args), b)
      | none => (.circuitOpen b, b)
  else
    b.execute sub now outcome

end Breaker

/-- The `left` value interpolated into `CircuitOpenError.__str__` when the
error is rendered at monotonic time `obsNow`: the stored breaker's
`time_left_in_open_state`, computed at rendering time. -/
def CircuitOpenError.msg_left {ε : Type} (b : Breaker ε) (obsNow : ℚ) : ℚ :=
  b.time_left_in_open_state obsNow

/-- Class attribute `CircuitBreaker.FAILURE_COUNT`. -/
def Breaker.FAILURE_COUNT : Int := 2

/-- Class attribute `CircuitBreaker.SUCCESS_COUNT`. -/
def Breaker.SUCCESS_COUNT : Int := 2

/-- Class attribute `CircuitBreaker.TIMEOUT` (`timedelta(seconds=30).total_seconds()`). -/
def Breaker.TIMEOUT : ℚ := 30

/-- `CircuitBreaker.__init__`.  `excBase` models the class `Exception`
(the default element of `HANDLE_EXCEPTIONS`).  Python `x or default`
falls back on falsy `x`: `none`, the int `0`, the zero `timedelta`, the
empty tuple.  `timeout` is the `timedelta` argument as seconds, with the
zero `timedelta` falsy. -/
def Breaker.init {ε : Type} (excBase : ε)
    (failure_count : Option Int) (success_count : Option Int)
    (timeout : Option ℚ)
    (handle_exceptions : List ε) (excluded_exceptions : List ε) : Breaker ε :=
  { state := .CLOSED
    failure_counter := 0
    max_failure_count :=
      match failure_count with
      | none => Breaker.FAILURE_COUNT
      | some n => if n = 0 then Breaker.FAILURE_COUNT else n
    success_counter := 0
    min_success_count :=
      match success_count with
      | none => Breaker.SUCCESS_COUNT
      | some n => if n = 0 then Breaker.SUCCESS_COUNT else n
    timeout :=
      match timeout with
      | none => Breaker.TIMEOUT
      | some q => if q = 0 then Breaker.TIMEOUT else q
    handle_exceptions :=
      if handle_exceptions.isEmpty then [excBase] else handle_exceptions
    excluded_exceptions := excluded_exceptions
    start_time_open_state := none }

/-- The `circuit_breaker` decorator factory: constructs
`CircuitBreaker(failure_count, success_count, timeout, handle_exceptions,
excluded_exceptions, fallback_function)` and attaches it; the breaker it
builds is exactly `Breaker.init` on the same arguments. -/
def circuit_breaker_factory {ε : Type} (excBase : ε)
    (failure_count : Option Int) (success_count : Option Int)
    (timeout : Option ℚ)
    (handle_exceptions : List ε) (excluded_exceptions : List ε) : Breaker ε :=
  Breaker.init excBase failure_count success_count timeout
    handle_exceptions excluded_exceptions

/-- Iterated counted failures: `run_failures b times k` is the breaker after
`k` counted failures fed through `_error_pipeline`, the `i`-th (0-based) at
monotonic time `times i`. -/
def Breaker.run_failures {ε : Type} (b : Breaker ε) (times : Nat → ℚ) : Nat → Breaker ε
  | 0 => b
  | k + 1 => (Breaker.run_failures b times k).error_pipeline (times k)

/-- Iterated successes: `run_successes b times k` is the breaker after `k`
successes fed through `_success_pipeline`, the `i`-th at time `times i`. -/
def Breaker.run_successes {ε : Type} (b : Breaker ε) (times : Nat → ℚ) : Nat → Breaker ε
  | 0 => b
  | k + 1 => (Breaker.run_successes b times k).success_pipeline (times k)

/-! ## Helper lemmas about single transitions -/

theorem Breaker.error_pipeline_closed_below {ε : Type} (b : Breaker ε) (now : ℚ)
    (hs : b.state = .CLOSED)
    (hlt : (b.failure_counter : Int) + 1 < b.max_failure_count) :
    b.error_pipeline now = { b with failure_counter := b.failure_counter + 1 } := by
  simp only [Breaker.error_pipeline, hs, if_pos, Breaker.failure_limit_is_reached]
  rw [if_neg]
  simp only [decide_eq_true_eq, not_le]
  push_cast
  omega

theorem Breaker.error_pipeline_closed_reach {ε : Type} (b : Breaker ε) (now : ℚ)
    (hs : b.state = .CLOSED)
    (hge : b.max_failure_count ≤ (b.failure_counter : Int) + 1) :
    b.error_pipeline now =
      { b with failure_counter := b.failure_counter + 1, state := .OPEN,
               start_time_open_state := some now } := by
  simp only [Breaker.error_pipeline, hs, if_pos, Breaker.failure_limit_is_reached]
  rw [if_pos]
  · rfl
  · simp only [decide_eq_true_eq]
    push_cast
    omega

theorem Breaker.success_pipeline_halfopen_below {ε : Type} (b : Breaker ε) (now : ℚ)
    (hs : b.state = .HALF_OPEN)
    (hlt : (b.success_counter : Int) + 1 < b.min_success_count) :
    b.success_pipeline now = { b with success_counter := b.success_counter + 1 } := by
  simp only [Breaker.success_pipeline, hs, if_pos, Breaker.success_limit_is_reached]
  rw [if_neg]
  simp only [decide_eq_true_eq, not_le]
  push_cast
  omega

theorem Breaker.success_pipeline_halfopen_reach {ε : Type} (b : Breaker ε) (now : ℚ)
    (hs : b.state = .HALF_OPEN)
    (hge : b.min_success_count ≤ (b.success_counter : Int) + 1) :
    b.success_pipeline now =
      { b with success_counter := b.success_counter + 1, state := .CLOSED,
               failure_counter := 0 } := by
  simp only [Breaker.success_pipeline, hs, if_pos, Breaker.success_limit_is_reached]
  rw [if_pos]
  · rfl
  · simp only [decide_eq_true_eq]
    push_cast
    omega

theorem Breaker.not_elapsed_of_le {ε : Type} (b : Breaker ε) (now t : ℚ)
    (hstart : b.start_time_open_state = some t) (ht : t ≠ 0)
    (hle : now - t ≤ b.timeout) :
    b.is_func_exec_after_open_state_finished now = false := by
  simp only [Breaker.is_func_exec_after_open_state_finished, hstart]
  rw [if_neg ht, if_neg (not_lt.mpr hle)]

theorem Breaker.error_pipeline_halfopen {ε : Type} (b : Breaker ε) (now : ℚ)
    (hs : b.state = .HALF_OPEN) :
    b.error_pipeline now =
      { b with success_counter := 0, state := .OPEN,
               start_time_open_state := some now } := by
  simp only [Breaker.error_pipeline, hs]
  rfl

/-! ## The claims -/

/-- **C1.** While `Closed` with `failureCount = 0` and
`failureThreshold = ft ≥ 1`, each counted failure increments
`failureCount` by 1 and leaves the breaker `Closed` (all other fields
untouched) for each of the first `ft - 1` failures; the `ft`-th counted
failure transitions to `Open` — not earlier — with `openedAt` set to the
time of that last failure. -/
theorem C1_closed_failures_open_at_threshold {ε : Type} (b : Breaker ε)
    (times : Nat → ℚ) (ft : Nat)
    (hs : b.state = .CLOSED) (hc : b.failure_counter = 0)
    (hft : b.max_failure_count = (ft : Int)) (hpos : 1 ≤ ft) :
    (∀ k, k < ft → b.run_failures times k = { b with failure_counter := k })
    ∧ b.run_failures times ft =
        { b with failure_counter := ft, state := .OPEN,
                 start_time_open_state := some (times (ft - 1)) } := by
  have key : ∀ k, k < ft → b.run_failures times k = { b with failure_counter := k } := by
    intro k
    induction k with
    | zero =>
      intro _
      simp only [Breaker.run_failures, ← hc]
    | succ n ih =>
      intro hlt
      have hn : n < ft := Nat.lt_of_succ_lt hlt
      simp only [Breaker.run_failures, ih hn]
      rw [Breaker.error_pipeline_closed_below]
      · exact hs
      · simp only [hft]
        omega
  refine ⟨key, ?_⟩
  obtain ⟨m, rfl⟩ : ∃ m, ft = m + 1 := ⟨ft - 1, (Nat.succ_pred_eq_of_pos hpos).symm⟩
  simp only [Breaker.run_failures, key m (Nat.lt_succ_self m)]
  rw [Breaker.error_pipeline_closed_reach]
  · simp
  · exact hs
  · simp only [hft]
    push_cast
    omega

/-- Witness for C1 at `ft = 2`. -/
theorem C1_witness :
    (∀ k, k < 2 →
        Breaker.run_failures
          (Breaker.init (0 : Nat) none none none [] []) (fun i => (i : ℚ) + 1) k =
          { Breaker.init (0 : Nat) none none none [] [] with failure_counter := k })
    ∧ Breaker.run_failures
          (Breaker.init (0 : Nat) none none none [] []) (fun i => (i : ℚ) + 1) 2 =
        { Breaker.init (0 : Nat) none none none [] [] with
            failure_counter := 2, state := .OPEN,
            start_time_open_state := some ((1 : ℚ) + 1) } :=
  C1_closed_failures_open_at_threshold
    (Breaker.init (0 : Nat) none none none [] []) (fun i => (i : ℚ) + 1) 2
    rfl rfl (by decide) (by decide)

/-- A concrete open breaker used by witnesses: opened at monotonic time 100,
cooldown 30 seconds. -/
def bOpen : Breaker Nat :=
  { state := .OPEN, failure_counter := 2, max_failure_count := 2,
    success_counter := 0, min_success_count := 2, timeout := 30,
    handle_exceptions := [0], excluded_exceptions := [],
    start_time_open_state := some 100 }

/-- A concrete half-open breaker used by witnesses. -/
def bHalf : Breaker Nat :=
  { state := .HALF_OPEN, failure_counter := 2, max_failure_count := 2,
    success_counter := 0, min_success_count := 2, timeout := 30,
    handle_exceptions := [0], excluded_exceptions := [],
    start_time_open_state := some 100 }

/-- A subclass relation where every class is a subclass of every class. -/
def subAll : Nat → Nat → Bool := fun _ _ => true

/-- **C2.** On a call attempt while `Open` (under the monotonic-clock
assumption that recorded timestamps are nonzero): the cooldown counts as
elapsed iff `openedAt` is absent or `now - openedAt` is strictly greater
than the cooldown duration; when elapsed, the breaker switches to
`HalfOpen` and that same invocation proceeds as the trial call; a call at
exactly `now - openedAt = cooldownDuration` is still rejected. -/
theorem C2_open_cooldown_strict {ε α argT : Type} (sub : ε → ε → Bool)
    (b : Breaker ε) (now : ℚ) (fallback : Option (argT → α)) (args : argT)
    (outcome : Except ε α)
    (hopen : b.state = .OPEN)
    (hclock : ∀ t, b.start_time_open_state = some t → t ≠ 0) :
    (b.is_func_exec_after_open_state_finished now = true ↔
       (b.start_time_open_state = none ∨
        ∃ t, b.start_time_open_state = some t ∧ now - t > b.timeout))
    ∧ (b.is_func_exec_after_open_state_finished now = true →
        Breaker.wrapper_call sub b now fallback args outcome =
          (b.switch_state .HALF_OPEN now).execute sub now outcome)
    ∧ (∀ t, b.start_time_open_state = some t → now - t = b.timeout →
        Breaker.wrapper_call sub b now fallback args outcome =
          (match fallback with
           | some f => (CallResult.ok (f args), b)
           | none => (CallResult.circuitOpen b, b))) := by
  refine ⟨?_, ?_, ?_⟩
  · cases h : b.start_time_open_state with
    | none => simp [Breaker.is_func_exec_after_open_state_finished, h]
    | some t =>
      have ht := hclock t h
      simp [Breaker.is_func_exec_after_open_state_finished, h, ht]
  · intro helapsed
    simp [Breaker.wrapper_call, hopen, helapsed]
  · intro t ht heq
    have ht0 := hclock t ht
    have hnotel : b.is_func_exec_after_open_state_finished now = false := by
      simp [Breaker.is_func_exec_after_open_state_finished, ht, ht0, heq]
    simp [Breaker.wrapper_call, hopen, hnotel]

/-- Witness for C2 at a concrete open breaker and `now = 130`. -/
theorem C2_witness :
    bOpen.is_func_exec_after_open_state_finished 130 = true ↔
      (bOpen.start_time_open_state = none ∨
       ∃ t, bOpen.start_time_open_state = some t ∧ 130 - t > bOpen.timeout) :=
  (C2_open_cooldown_strict subAll bOpen 130 (none : Option (Unit → Nat)) ()
    (Except.ok 0) rfl
    (by intro t ht
        simp only [bOpen] at ht
        cases ht
        norm_num)).1

/-- **C3.** While `HalfOpen` with `successCount = 0` and
`successThreshold = st ≥ 1`: each success increments `successCount` by 1
and stays `HalfOpen` for the first `st - 1` successes; the `st`-th success
transitions to `Closed`, resetting `failureCount` to 0.  And for *every*
breaker `bf` in state `HalfOpen` — whatever its `successCount` — a single
counted failure transitions immediately to `Open`, resetting
`successCount` to 0 and setting `openedAt` to the current time. -/
theorem C3_halfopen_transitions {ε : Type} (b bf : Breaker ε)
    (times : Nat → ℚ) (st : Nat) (now : ℚ)
    (hs : b.state = .HALF_OPEN) (hc : b.success_counter = 0)
    (hst : b.min_success_count = (st : Int)) (hpos : 1 ≤ st)
    (hf : bf.state = .HALF_OPEN) :
    (∀ k, k < st → b.run_successes times k = { b with success_counter := k })
    ∧ b.run_successes times st =
        { b with success_counter := st, state := .CLOSED, failure_counter := 0 }
    ∧ bf.error_pipeline now =
        { bf with success_counter := 0, state := .OPEN,
                  start_time_open_state := some now } := by
  have key : ∀ k, k < st → b.run_successes times k = { b with success_counter := k } := by
    intro k
    induction k with
    | zero =>
      intro _
      simp only [Breaker.run_successes, ← hc]
    | succ n ih =>
      intro hlt
      have hn : n < st := Nat.lt_of_succ_lt hlt
      simp only [Breaker.run_successes, ih hn]
      rw [Breaker.success_pipeline_halfopen_below]
      · exact hs
      · simp only [hst]
        omega
  refine ⟨key, ?_, Breaker.error_pipeline_halfopen bf now hf⟩
  obtain ⟨m, rfl⟩ : ∃ m, st = m + 1 := ⟨st - 1, (Nat.succ_pred_eq_of_pos hpos).symm⟩
  simp only [Breaker.run_successes, key m (Nat.lt_succ_self m)]
  rw [Breaker.success_pipeline_halfopen_reach]
  · exact hs
  · simp only [hst]
    push_cast
    omega

/-- Witness for C3 at `st = 2` on a concrete half-open breaker; the
failure conjunct is exercised on a half-open breaker whose
`success_counter` is the nonzero 1 and gets reset to 0. -/
theorem C3_witness :
    (∀ k, k < 2 → bHalf.run_successes (fun i => (i : ℚ) + 50) k =
        { bHalf with success_counter := k })
    ∧ bHalf.run_successes (fun i => (i : ℚ) + 50) 2 =
        { bHalf with success_counter := 2, state := .CLOSED, failure_counter := 0 }
    ∧ ({ bHalf with success_counter := 1 } : Breaker Nat).error_pipeline 200 =
        { ({ bHalf with success_counter := 1 } : Breaker Nat) with
            success_counter := 0, state := .OPEN,
            start_time_open_state := some 200 } :=
  C3_halfopen_transitions bHalf ({ bHalf with success_counter := 1 } : Breaker Nat)
    (fun i => (i : ℚ) + 50) 2 200
    rfl rfl (by decide) (by decide) rfl

/-- A freshly constructed breaker with thresholds 1 and cooldown 5,
handling every exception. -/
def bC4_start : Breaker Nat := Breaker.init 0 (some 1) (some 1) (some 5) [] []

/-- `bC4_start` after one counted failure at time 1: `Open`, opened at 1. -/
def bC4_open1 : Breaker Nat :=
  (Breaker.wrapper_call subAll bC4_start 1 (none : Option (Unit → Nat)) ()
    (Except.error 7)).2

/-- `bC4_open1` after a successful trial call at time 10 (cooldown of 5
elapsed): back to `Closed`, but with `success_counter = 1`. -/
def bC4_closed : Breaker Nat :=
  (Breaker.wrapper_call subAll bC4_open1 10 (none : Option (Unit → Nat)) ()
    (Except.ok 0)).2

theorem bC4_open1_eq :
    bC4_open1 =
      { state := .OPEN, failure_counter := 1, max_failure_count := 1,
        success_counter := 0, min_success_count := 1, timeout := 5,
        handle_exceptions := [0], excluded_exceptions := [],
        start_time_open_state := some 1 } := by
  decide

theorem bC4_closed_eq :
    bC4_closed =
      { state := .CLOSED, failure_counter := 0, max_failure_count := 1,
        success_counter := 1, min_success_count := 1, timeout := 5,
        handle_exceptions := [0], excluded_exceptions := [],
        start_time_open_state := some 1 } := by
  unfold bC4_closed
  rw [bC4_open1_eq]
  norm_num [Breaker.wrapper_call, Breaker.is_func_exec_after_open_state_finished,
    Breaker.switch_state, Breaker.execute, Breaker.exit_step,
    Breaker.success_pipeline, Breaker.success_limit_is_reached]

/-- **C4 is false on the code**: the reachable breaker `bC4_closed` is
`Closed` with `successCount = 1` (it was never reset when `HalfOpen`
closed), and the `Closed → Open` transition triggered by a counted failure
at time 11 leaves `successCount = 1`, not 0: `_switch_state` to `OPEN` does
not reset the success counter. -/
theorem C4_counterexample :
    bC4_closed.state = .CLOSED ∧ bC4_closed.success_counter = 1
    ∧ (bC4_closed.error_pipeline 11).state = .OPEN
    ∧ (bC4_closed.error_pipeline 11).success_counter = 1 := by
  rw [bC4_closed_eq]
  decide

/-- **C4 (amended).** `successCount` is reset to 0 on every transition into
`HalfOpen` and on the `HalfOpen → Open` transition; the `Closed → Open`
transition leaves `successCount` unchanged (it may stay nonzero). -/
theorem C4_amended {ε : Type} (b bh bc : Breaker ε) (now : ℚ)
    (hh : bh.state = .HALF_OPEN) (hc : bc.state = .CLOSED) :
    (b.switch_state .HALF_OPEN now).success_counter = 0
    ∧ (bh.error_pipeline now).success_counter = 0
    ∧ (bc.error_pipeline now).success_counter = bc.success_counter := by
  refine ⟨rfl, ?_, ?_⟩
  · rw [Breaker.error_pipeline_halfopen bh now hh]
  · simp only [Breaker.error_pipeline, hc, if_pos]
    split <;> rfl

/-- Witness for the amended C4. -/
theorem C4_amended_witness :
    (bOpen.switch_state .HALF_OPEN 11).success_counter = 0
    ∧ (bHalf.error_pipeline 11).success_counter = 0
    ∧ (bC4_closed.error_pipeline 11).success_counter = bC4_closed.success_counter :=
  C4_amended bOpen bHalf bC4_closed 11 rfl (by rw [bC4_closed_eq])

/-- **C5.** A call attempt while `Open` with cooldown not elapsed
(`openedAt = t ≠ 0` and `now - t ≤ cooldownDuration`): whatever the
protected function would have done, it is not executed; with a fallback
configured the fallback is applied to the same arguments and its result
returned, otherwise the Breaker-Open error is raised; the breaker record —
state, failureCount, successCount, openedAt — is returned unchanged. -/
theorem C5_open_rejection {ε α argT : Type} (sub : ε → ε → Bool)
    (b : Breaker ε) (now t : ℚ) (fallback : Option (argT → α)) (args : argT)
    (hopen : b.state = .OPEN)
    (hstart : b.start_time_open_state = some t) (ht : t ≠ 0)
    (hle : now - t ≤ b.timeout) :
    ∀ outcome : Except ε α,
      Breaker.wrapper_call sub b now fallback args outcome =
        (match fallback with
         | some f => (CallResult.ok (f args), b)
         | none => (CallResult.circuitOpen b, b)) := by
  intro outcome
  simp [Breaker.wrapper_call, hopen, Breaker.not_elapsed_of_le b now t hstart ht hle]

/-- Witness for C5: `bOpen` at `now = 110` with a fallback returning 42. -/
theorem C5_witness :
    Breaker.wrapper_call subAll bOpen 110 (some fun _ => (42 : Nat)) ()
        (Except.ok 0) = (CallResult.ok 42, bOpen) :=
  C5_open_rejection subAll bOpen 110 100 (some fun _ => (42 : Nat)) ()
    rfl rfl (by norm_num) (by norm_num [bOpen]) (Except.ok 0)

/-- **C6.** The outcome classifier: with a nonempty exclude-set configured,
an error class is counted iff it is not a subclass of any excluded category
and is a subclass of some handled category; with no exclude-set, iff it is
a subclass of some handled category; and a normal return always takes the
success path of `__exit__`. -/
theorem C6_classifier {ε : Type} (sub : ε → ε → Bool)
    (b1 b2 b : Breaker ε) (e1 e2 : ε) (now : ℚ)
    (h1 : b1.excluded_exceptions ≠ [])
    (h2 : b2.excluded_exceptions = []) :
    (b1.is_need_handle_error sub e1 = true ↔
       ((∀ c ∈ b1.excluded_exceptions, sub e1 c = false)
        ∧ ∃ c ∈ b1.handle_exceptions, sub e1 c = true))
    ∧ (b2.is_need_handle_error sub e2 = true ↔
       ∃ c ∈ b2.handle_exceptions, sub e2 c = true)
    ∧ b.exit_step sub none now = b.success_pipeline now := by
  refine ⟨?_, ?_, rfl⟩
  · have h1e : b1.excluded_exceptions.isEmpty = false := by
      simpa [List.isEmpty_iff] using h1
    simp [Breaker.is_need_handle_error, h1e, Breaker.issubclassTup, List.any_eq_true]
  · simp [Breaker.is_need_handle_error, h2, Breaker.issubclassTup, List.any_eq_true]

/-- Witness for C6 on concrete breakers: exclude-set `[1]`, handled `[0]`,
subclass relation `fun a c => a = c ∨ c = 0` (every class refines class 0). -/
theorem C6_witness :
    (({ bOpen with excluded_exceptions := [1] } : Breaker Nat).is_need_handle_error
        (fun a c => a = c || c = 0) 2 = true ↔
       ((∀ c ∈ ({ bOpen with excluded_exceptions := [1] } : Breaker Nat).excluded_exceptions,
            (fun a c => a = c || c = 0) 2 c = false)
        ∧ ∃ c ∈ ({ bOpen with excluded_exceptions := [1] } : Breaker Nat).handle_exceptions,
            (fun a c => a = c || c = 0) 2 c = true))
    ∧ (bOpen.is_need_handle_error (fun a c => a = c || c = 0) 2 = true ↔
       ∃ c ∈ bOpen.handle_exceptions, (fun a c => a = c || c = 0) 2 c = true)
    ∧ bHalf.exit_step (fun a c => a = c || c = 0) none 55 = bHalf.success_pipeline 55 :=
  C6_classifier (fun a c => a = c || c = 0)
    ({ bOpen with excluded_exceptions := [1] } : Breaker Nat) bOpen bHalf 2 2 55
    (by decide) rfl

/-- **C7.** An executed call whose raised error class is classified as
ignored leaves the breaker record entirely unchanged, and the original
error propagates to the caller unchanged. -/
theorem C7_ignored_error {ε α : Type} (sub : ε → ε → Bool)
    (b : Breaker ε) (e : ε) (now : ℚ)
    (h : b.is_need_handle_error sub e = false) :
    b.execute (α := α) sub now (Except.error e) = (CallResult.raised e, b) := by
  simp [Breaker.execute, Breaker.exit_step, h]

/-- A subclass relation where no class is a subclass of any class. -/
def subNone : Nat → Nat → Bool := fun _ _ => false

/-- Witness for C7: error class 9 is not in the handled set under
`subNone`, so the call leaves `bOpen` unchanged and re-raises 9. -/
theorem C7_witness :
    bOpen.execute (α := Nat) subNone 5 (Except.error 9) =
      (CallResult.raised 9, bOpen) :=
  C7_ignored_error subNone bOpen 9 5 (by decide)

/-- **C8 is false on the code**: `CircuitOpenError` stores the breaker, and
its message recomputes `time_left_in_open_state` each time it is rendered.
`bOpen` (opened at 100, cooldown 30) rejects a call at 110, when the time
left is 20; rendering the raised error's message at 125 reports 5, not the
20 of the rejection instant — the value is continuously updated. -/
theorem C8_counterexample :
    Breaker.wrapper_call subAll bOpen 110 (none : Option (Unit → Nat)) ()
        (Except.ok 0) = (CallResult.circuitOpen bOpen, bOpen)
    ∧ bOpen.time_left_in_open_state 110 = 20
    ∧ CircuitOpenError.msg_left bOpen 125 = 5
    ∧ (5 : ℚ) ≠ 20 := by
  have hnot : bOpen.is_func_exec_after_open_state_finished 110 = false :=
    Breaker.not_elapsed_of_le bOpen 110 100 rfl (by norm_num) (by norm_num [bOpen])
  refine ⟨?_, ?_, ?_, by norm_num⟩
  · simp [Breaker.wrapper_call, hnot, show bOpen.state = BreakerState.OPEN from rfl]
  · norm_num [Breaker.time_left_in_open_state, bOpen]
  · norm_num [CircuitOpenError.msg_left, Breaker.time_left_in_open_state, bOpen]

/-- **C8 (amended).** The Breaker-Open error raised on a rejected call
carries the breaker itself (hence its identity and `openedAt`); the
time-left its message reports is computed from the breaker at the instant
the message is observed — while the cooldown still runs at observation
time `obsNow` it reports `cooldownDuration - (obsNow - openedAt)`, not a
value frozen at the rejection instant. -/
theorem C8_amended {ε α argT : Type} (sub : ε → ε → Bool)
    (b : Breaker ε) (now t : ℚ) (args : argT) (outcome : Except ε α)
    (hopen : b.state = .OPEN)
    (hstart : b.start_time_open_state = some t) (ht : t ≠ 0)
    (hle : now - t ≤ b.timeout) :
    Breaker.wrapper_call sub b now (none : Option (argT → α)) args outcome =
      (CallResult.circuitOpen b, b)
    ∧ ∀ obsNow : ℚ, obsNow - t ≤ b.timeout →
        CircuitOpenError.msg_left b obsNow = b.timeout - (obsNow - t) := by
  constructor
  · simp [Breaker.wrapper_call, hopen, Breaker.not_elapsed_of_le b now t hstart ht hle]
  · intro obsNow hobs
    simp only [CircuitOpenError.msg_left, Breaker.time_left_in_open_state, hstart]
    rw [if_neg ht, if_neg (not_lt.mpr hobs)]

/-- Witness for the amended C8 at `bOpen`, rejecting at 110. -/
theorem C8_amended_witness :
    Breaker.wrapper_call subAll bOpen 110 (none : Option (Unit → Nat)) ()
        (Except.ok (0 : Nat)) = (CallResult.circuitOpen bOpen, bOpen)
    ∧ ∀ obsNow : ℚ, obsNow - 100 ≤ bOpen.timeout →
        CircuitOpenError.msg_left bOpen obsNow = bOpen.timeout - (obsNow - 100) :=
  C8_amended subAll bOpen 110 100 () (Except.ok 0)
    rfl rfl (by norm_num) (by norm_num [bOpen])

/-- **C10.** The factory forwards its arguments to the constructor
unchanged; every falsy configuration argument — `0` thresholds, a
zero-length `timedelta`, empty exception tuples — is replaced by the class
default (thresholds 2, cooldown 30 seconds, handled `(Exception,)`,
excluded none); consequently no configuration yields a threshold of 0 or a
cooldown duration of 0. -/
theorem C10_falsy_config_defaults {ε : Type} (excBase : ε) :
    (∀ (fc sc : Option Int) (tm : Option ℚ) (h x : List ε),
        circuit_breaker_factory excBase fc sc tm h x =
          Breaker.init excBase fc sc tm h x)
    ∧ Breaker.init excBase (some 0) (some 0) (some 0) [] [] =
        { state := .CLOSED, failure_counter := 0, max_failure_count := 2,
          success_counter := 0, min_success_count := 2, timeout := 30,
          handle_exceptions := [excBase], excluded_exceptions := [],
          start_time_open_state := none }
    ∧ (∀ (fc sc : Option Int) (tm : Option ℚ) (h x : List ε),
        (Breaker.init excBase fc sc tm h x).max_failure_count ≠ 0
        ∧ (Breaker.init excBase fc sc tm h x).min_success_count ≠ 0
        ∧ (Breaker.init excBase fc sc tm h x).timeout ≠ 0) := by
  refine ⟨fun _ _ _ _ _ => rfl,
    by norm_num [Breaker.init, Breaker.FAILURE_COUNT, Breaker.SUCCESS_COUNT,
      Breaker.TIMEOUT], ?_⟩
  intro fc sc tm h x
  refine ⟨?_, ?_, ?_⟩
  · cases fc with
    | none => simp [Breaker.init, Breaker.FAILURE_COUNT]
    | some n =>
      by_cases hn : n = 0 <;> simp [Breaker.init, Breaker.FAILURE_COUNT, hn]
  · cases sc with
    | none => simp [Breaker.init, Breaker.SUCCESS_COUNT]
    | some n =>
      by_cases hn : n = 0 <;> simp [Breaker.init, Breaker.SUCCESS_COUNT, hn]
  · cases tm with
    | none => norm_num [Breaker.init, Breaker.TIMEOUT]
    | some q =>
      by_cases hq : q = 0 <;> norm_num [Breaker.init, Breaker.TIMEOUT, hq]
